import Mathlib

/-!
# Verification of the sigtryggr geolocation resolver

Shallow embedding of the two source files of the repository:

* `api/geoip` (src/unnamed/part_000): the country-detection endpoint with
  `isValidCountryCode`, `detectCountry` and the request `handler`.
* `src/utils.js`: the URL safety validator `isValidUrl`, the configuration
  loader `loadConfig` and `getDefaultConfig`.

JavaScript header values are modelled by `HVal`; a generic JavaScript value
is represented by its `String(...)` coercion together with its truthiness,
which is all the embedded code ever observes of a value.  Logging calls are
output-only side effects and are omitted from the embedding.
-/

set_option autoImplicit false

/-! ## JavaScript string primitives

The embedded code uses `String(...)`, `toUpperCase`, `toLowerCase`,
`trim`, `includes` and `startsWith`.  They are modelled here over
`List Char` so that every definition reduces in the kernel. -/

/-- Whitespace as trimmed by JavaScript `trim` (the ASCII part, which is
all that can affect the embedded validations). -/
def isJsSpace (c : Char) : Bool :=
  c = ' ' || c = '\t' || c = '\n' || c = '\r' || c = '\x0b' || c = '\x0c'

/-- JavaScript `toUpperCase`, ASCII part. -/
def jsToUpper (s : String) : String :=
  String.mk (s.data.map Char.toUpper)

/-- JavaScript `toLowerCase`, ASCII part. -/
def jsToLower (s : String) : String :=
  String.mk (s.data.map Char.toLower)

/-- JavaScript `trim`: drop whitespace from both ends. -/
def jsTrim (s : String) : String :=
  String.mk (((s.data.dropWhile isJsSpace).reverse.dropWhile isJsSpace).reverse)

/-- Is `pat` a leading block of `text`? -/
def leadsList (pat text : List Char) : Bool :=
  match pat, text with
  | [], _ => true
  | _ :: _, [] => false
  | p :: ps, c :: cs => p = c && leadsList ps cs

/-- Does `pat` occur contiguously inside `text`? -/
def occursList (pat : List Char) : List Char → Bool
  | [] => pat.isEmpty
  | c :: cs => leadsList pat (c :: cs) || occursList pat cs

/-- JavaScript `String.prototype.includes`. -/
def containsSub (s pat : String) : Bool :=
  occursList pat.data s.data

/-- JavaScript `String.prototype.startsWith`. -/
def jsStartsWith (s pat : String) : Bool :=
  leadsList pat.data s.data

/-- A JavaScript header value: a string, an array of strings (as Node may
supply for repeated headers), or any other JavaScript value abstracted by
its `String(...)` coercion and its truthiness. -/
inductive HVal where
  | str (s : String)
  | arr (l : List String)
  | other (coerced : String) (truthy : Bool)
  deriving Repr, DecidableEq

/-- JavaScript `String(value)` coercion: a string is itself, an array joins
its elements with commas, any other value is carried by its coercion. -/
def HVal.toStr : HVal → String
  | .str s => s
  | .arr l => String.mk (List.intercalate [','] (l.map String.data))
  | .other s _ => s

/-- JavaScript truthiness of a header value: the empty string is falsy,
every array is truthy, other values carry their truthiness flag. -/
def HVal.truthy : HVal → Bool
  | .str s => s != ""
  | .arr _ => true
  | .other _ b => b

/-- A request header object: a finite sequence of key/value entries in the
object insertion order (JavaScript objects cannot repeat a key). -/
def HeaderMap : Type := List (String × HVal)

/-- JavaScript property access `headers[name]`: the value at the exact,
case-sensitive key, or `none` when the key is absent. -/
def getHeader (headers : HeaderMap) (name : String) : Option HVal :=
  match headers with
  | [] => none
  | (k, v) :: rest => if k = name then some v else getHeader rest name

/-- `isValidCountryCode` from the endpoint file: a non-empty string of
exactly 2 characters matching the regular expression of two uppercase
ASCII letters.  The `typeof` guard always receives a string here. -/
def isValidCountryCode (code : String) : Bool :=
  if code = "" then false
  else if code.length != 2 || !(code.data.all fun c => c.isUpper) then false
  else true

/-- The normalization applied to every candidate header value in
`detectCountry`: `String(value).toUpperCase().trim()`. -/
def HVal.normalize (v : HVal) : String :=
  jsTrim (jsToUpper v.toStr)

/-- The five exact Vercel header names tried by stage 1, in order. -/
def vercelHeaders : List String :=
  ["x-vercel-ip-country", "X-Vercel-Ip-Country", "X-VERCEL-IP-COUNTRY",
   "x-vercel-ipcountry", "X-Vercel-IPCountry"]

/-- Stage 1 of `detectCountry`: the loop over the exact Vercel header
names.  A present, truthy value whose normalization validates stops the
loop; anything else moves to the next name. -/
def tryHeaderList (headers : HeaderMap) : List String → Option String
  | [] => none
  | name :: rest =>
    match getHeader headers name with
    | some value =>
      if value.truthy then
        if isValidCountryCode value.normalize then some value.normalize
        else tryHeaderList headers rest
      else tryHeaderList headers rest
    | none => tryHeaderList headers rest

/-- Stage 2 of `detectCountry`: the `for (const key in headers)` scan over
all entries, selecting the first whose lowercased key contains both
"vercel" and "country" and whose truthy value normalizes to a valid
code. -/
def scanHeaders : HeaderMap → Option String
  | [] => none
  | (key, value) :: rest =>
    if containsSub (jsToLower key) "vercel" && containsSub (jsToLower key) "country" then
      if value.truthy then
        if isValidCountryCode value.normalize then some value.normalize
        else scanHeaders rest
      else scanHeaders rest
    else scanHeaders rest

/-- Stage 3 of `detectCountry`: the Cloudflare fallback, an exact lookup
of the key "cf-ipcountry" whose truthy value must normalize to a valid
code. -/
def cfStage (headers : HeaderMap) : Option String :=
  match getHeader headers "cf-ipcountry" with
  | some value =>
    if value.truthy then
      if isValidCountryCode value.normalize then some value.normalize else none
    else none
  | none => none

/-- `detectCountry` from the endpoint file.  The mutable `country`
variable starts at "XX"; stage 1 may overwrite it, and stages 2 and 3
each run only while `country` still equals "XX" — so a detected literal
"XX" is indistinguishable from the sentinel and does not stop the later
stages. -/
def detectCountry (headers : HeaderMap) : String :=
  let c1 :=
    match tryHeaderList headers vercelHeaders with
    | some code => code
    | none => "XX"
  let c2 :=
    if c1 = "XX" then
      match scanHeaders headers with
      | some code => code
      | none => c1
    else c1
  if c2 = "XX" then
    match cfStage headers with
    | some code => code
    | none => c2
  else c2

/-- Proof helper: the country after stage 1, i.e. the value of the
mutable `country` variable after the first loop. -/
def stage1 (headers : HeaderMap) : String :=
  match tryHeaderList headers vercelHeaders with
  | some code => code
  | none => "XX"

/-- Proof helper: one guarded stage of `detectCountry` — the stage runs
only while `country` still equals the sentinel, and leaves it unchanged
when it finds nothing. -/
def stageStep (prev : String) (o : Option String) : String :=
  if prev = "XX" then
    match o with
    | some code => code
    | none => prev
  else prev

/-! ## URL safety validator (src/utils.js) -/

/-- The parts of a parsed URL observed by `isValidUrl`: the protocol
(scheme with trailing colon) and the hostname. -/
structure URLRec where
  protocol : String
  hostname : String
  deriving Repr, DecidableEq

/-- First character of a URL scheme: an ASCII letter. -/
def isSchemeStart (c : Char) : Bool :=
  c.isAlpha

/-- Subsequent character of a URL scheme. -/
def isSchemeChar (c : Char) : Bool :=
  c.isAlpha || c.isDigit || c = '+' || c = '-' || c = '.'

/-- Split a leading `scheme:` off a character list; `none` when the input
does not start with a well-formed scheme followed by a colon (the URL
constructor throws on such input, absent a base URL). -/
def takeScheme (acc : List Char) : List Char → Option (List Char × List Char)
  | [] => none
  | c :: rest =>
    if c = ':' then
      if acc.isEmpty then none else some (acc.reverse, rest)
    else if (if acc.isEmpty then isSchemeStart c else isSchemeChar c) then
      takeScheme (c :: acc) rest
    else none

/-- The host part of an authority: everything after the last `@`
(userinfo separator). -/
def afterLastAt (auth : List Char) : List Char :=
  (auth.reverse.takeWhile fun c => c != '@').reverse

/-- Drop a trailing `:port` from a host (an IPv6 bracket host is kept
whole). -/
def stripPort (host : List Char) : List Char :=
  match host with
  | '[' :: _ => host
  | _ => host.takeWhile fun c => c != ':'

/-- Split a character list on a separator, keeping empty pieces (the
strict split used by the URL Standard on `.`). -/
def splitOnChar (sep : Char) : List Char → List (List Char)
  | [] => [[]]
  | c :: rest =>
    let r := splitOnChar sep rest
    if c = sep then [] :: r
    else
      match r with
      | [] => [[c]]
      | h :: t => (c :: h) :: t

/-- ASCII hex digit. -/
def isHexDigitChar (c : Char) : Bool :=
  c.isDigit || ('a' ≤ c && c ≤ 'f') || ('A' ≤ c && c ≤ 'F')

/-- Value of an ASCII hex digit. -/
def hexDigitVal (c : Char) : Nat :=
  if c.isDigit then c.toNat - '0'.toNat
  else if 'a' ≤ c && c ≤ 'f' then c.toNat - 'a'.toNat + 10
  else if 'A' ≤ c && c ≤ 'F' then c.toNat - 'A'.toNat + 10
  else 0

/-- Numeric value of a digit sequence in the given radix. -/
def digitsVal (base : Nat) (l : List Char) : Nat :=
  l.foldl (fun acc c => acc * base + hexDigitVal c) 0

/-- The IPv4 number parser of the URL Standard: `0x`/`0X` selects hex
(an empty remainder is zero), a remaining leading `0` selects octal,
otherwise decimal; a character invalid for the radix is a failure. -/
def parseIPv4Num (l : List Char) : Option Nat :=
  match l with
  | [] => none
  | '0' :: c :: rest =>
    if c = 'x' || c = 'X' then
      if rest.all isHexDigitChar then some (digitsVal 16 rest) else none
    else
      if (c :: rest).all (fun d => '0' ≤ d && d ≤ '7') then some (digitsVal 8 (c :: rest))
      else none
  | _ =>
    if l.all Char.isDigit then some (digitsVal 10 l) else none

/-- Sequence a list of optional numbers, failing if any entry failed. -/
def seqOption : List (Option Nat) → Option (List Nat)
  | [] => some []
  | o :: rest =>
    match o, seqOption rest with
    | some n, some l => some (n :: l)
    | _, _ => none

/-- The "ends in a number" check of the URL Standard host parser: after
dropping one trailing empty label, the last label either parses as an
IPv4 number or is a non-empty digit string. -/
def endsInNumber (host : List Char) : Bool :=
  let parts := splitOnChar '.' host
  let parts :=
    match parts.getLast? with
    | some [] => if parts.length = 1 then [] else parts.dropLast
    | _ => parts
  match parts.getLast? with
  | none => false
  | some last => (parseIPv4Num last).isSome || (!last.isEmpty && last.all Char.isDigit)

/-- The IPv4 parser of the URL Standard: split on `.`, drop one trailing
empty part, at most 4 parts, each part an IPv4 number, every part but
the last at most 255, the last below `256 ^ (5 - size)`; the result is
the 32-bit address. -/
def parseIPv4 (host : List Char) : Option Nat :=
  let parts := splitOnChar '.' host
  let parts :=
    match parts.getLast? with
    | some [] => if parts.length > 1 then parts.dropLast else parts
    | _ => parts
  if parts.length > 4 then none
  else
    match seqOption (parts.map parseIPv4Num) with
    | none => none
    | some numbers =>
      if numbers.dropLast.any fun n => n > 255 then none
      else
        match numbers.getLast? with
        | none => none
        | some last =>
          if last ≥ 256 ^ (5 - numbers.length) then none
          else
            some (last + (numbers.dropLast.enum.foldl
              (fun acc p => acc + p.2 * 256 ^ (3 - p.1)) 0))

/-- Canonical dotted-decimal serialization of a 32-bit IPv4 address,
as produced by the URL Standard host serializer. -/
def serializeIPv4 (n : Nat) : List Char :=
  Nat.toDigits 10 (n / 16777216 % 256) ++ '.' ::
    (Nat.toDigits 10 (n / 65536 % 256) ++ '.' ::
      (Nat.toDigits 10 (n / 256 % 256) ++ '.' :: Nat.toDigits 10 (n % 256)))

/-- Model of the host platform's WHATWG URL constructor (`new URL`),
restricted to what `isValidUrl` observes: parse success, the protocol,
and the hostname.  For the special schemes http and https the authority
is read after skipping leading slashes, userinfo and port are removed,
an empty host is a parse failure, and the lowercased host is validated
as an IPv4 address when it ends in a number (an out-of-range or
malformed IPv4 host is a parse failure, and a valid one is serialized
canonically) and kept as a lowercased domain otherwise; for other
schemes the path is opaque and the hostname empty.  Percent decoding
and IDNA are outside the modelled fragment. -/
def parseURL (s : String) : Option URLRec :=
  match takeScheme [] (jsTrim s).data with
  | none => none
  | some (schemeChars, rest) =>
    let scheme := jsToLower (String.mk schemeChars)
    if scheme = "http" || scheme = "https" then
      let afterSlashes := rest.dropWhile fun c => c = '/' || c = '\\'
      let auth := afterSlashes.takeWhile fun c => !(c = '/' || c = '\\' || c = '?' || c = '#')
      let host := stripPort (afterLastAt auth)
      if host.isEmpty then none
      else
        let hostLower := host.map Char.toLower
        if endsInNumber hostLower then
          match parseIPv4 hostLower with
          | none => none
          | some n =>
            some { protocol := scheme ++ ":", hostname := String.mk (serializeIPv4 n) }
        else
          some { protocol := scheme ++ ":", hostname := String.mk hostLower }
    else
      some { protocol := scheme ++ ":", hostname := "" }

/-- A JavaScript value passed to `isValidUrl`: a string, or any
non-string value abstracted by its truthiness (all the guard observes
of it). -/
inductive JSVal where
  | str (s : String)
  | nonstr (truthy : Bool)
  deriving Repr, DecidableEq

/-- `isValidUrl` from src/utils.js.  The leading guard rejects falsy and
non-string values and the literal "#"; a parse failure is the caught
exception path; then the protocol must be http or https, the hostname
non-empty, and — only when `production` holds (`NODE_ENV ===
'production'`) — the lowercased hostname must not be localhost,
127.0.0.1, or start with the private prefixes. -/
def isValidUrl (url : JSVal) (production : Bool) : Bool :=
  match url with
  | .nonstr _ => false
  | .str s =>
    if s = "" || s = "#" then false
    else
      match parseURL s with
      | none => false
      | some u =>
        if !(u.protocol = "http:" || u.protocol = "https:") then false
        else if u.hostname = "" then false
        else if production then
          let hostname := jsToLower u.hostname
          if hostname = "localhost" ||
              hostname = "127.0.0.1" ||
              jsStartsWith hostname "192.168." ||
              jsStartsWith hostname "10." ||
              jsStartsWith hostname "172." then false
          else true
        else true

/-! ## Configuration loader (src/utils.js) -/

/-- The `settings` block of the configuration object. -/
structure Settings where
  instantRedirectMode : Bool
  minWaitTime : Nat
  maxWaitTime : Nat
  enableLogging : Bool
  enableVPNDetection : Bool
  vpnDetectionThreshold : Nat
  deriving Repr, DecidableEq

/-- The `counter` block of the configuration object. -/
structure CounterCfg where
  key : String
  titles : List (String × String)
  deriving Repr, DecidableEq

/-- The configuration object shape used by src/utils.js. -/
structure Config where
  redirects : List (String × String)
  counter : CounterCfg
  flags : List (String × String)
  settings : Settings
  adScripts : List String
  adultDomains : List String
  allowedUrlParams : List String
  deriving Repr, DecidableEq

/-- `getDefaultConfig` from src/utils.js, field for field. -/
def getDefaultConfig : Config :=
  { redirects := [("DEFAULT", "https://t.co/y5IrJWOLzN")]
    counter := { key := "norieldev", titles := [("DEFAULT", "NORIEL DEV NULL")] }
    flags := [("DEFAULT", "https://flagcdn.com/w320/un.png")]
    settings := { instantRedirectMode := false
                  minWaitTime := 1500
                  maxWaitTime := 3000
                  enableLogging := true
                  enableVPNDetection := true
                  vpnDetectionThreshold := 60 }
    adScripts := []
    adultDomains := []
    allowedUrlParams := ["id", "page", "view"] }

/-- `loadConfig` from src/utils.js.  The fetch, the HTTP status check and
the JSON decoding are host I/O; their combined outcome is the argument:
`.ok` a decoded configuration, `.error` any failure (network error,
non-ok status, malformed body).  The catch block substitutes the default
configuration. -/
def loadConfig (fetchOutcome : Except String Config) : Config :=
  match fetchOutcome with
  | .ok config => config
  | .error _ => getDefaultConfig

/-! ## Request handler (endpoint file) -/

/-- The observable response of the endpoint handler: HTTP status and the
JSON body fields the claims mention (`Allow` header, `error`, `country`,
`message`). -/
structure ApiResponse where
  status : Nat
  allow : Option String
  error : Option String
  country : Option String
  message : Option String
  deriving Repr, DecidableEq

/-- The endpoint `handler`.  `devMode` is `NODE_ENV === 'development'`;
`raised` models an exception thrown by the host response API inside the
`try` block (`some` carries `error.message`; the embedded computations
themselves are total).  A non-GET/POST method is answered 405 before the
`try` block; a raised error is caught and answered 500 with the sentinel
country and a message that is the error detail only in development
mode. -/
def handler (devMode : Bool) (method : String) (headers : HeaderMap)
    (raised : Option String) : ApiResponse :=
  if method != "GET" && method != "POST" then
    { status := 405, allow := some "GET, POST", error := some "Method not allowed",
      country := some "XX", message := none }
  else
    match raised with
    | some errDetail =>
      { status := 500, allow := none, error := some "Internal server error",
        country := some "XX",
        message := some (if devMode then errDetail else "An error occurred") }
    | none =>
      { status := 200, allow := none, error := none,
        country := some (detectCountry headers), message := none }

example : detectCountry [("x-vercel-ip-country", HVal.str "us")] = "US" := by decide
example : detectCountry [("x-vercel-ip-country", HVal.str "xx"),
    ("cf-ipcountry", HVal.str "FR")] = "FR" := by decide
example : detectCountry [("CF-IPCountry", HVal.str "FR")] = "XX" := by decide
example : detectCountry [("x-custom-vercel-country-code", HVal.str "de")] = "DE" := by decide
example : detectCountry [] = "XX" := by decide
example : isValidUrl (JSVal.str "https://example.com/path") false = true := by decide
example : isValidUrl (JSVal.str "javascript:alert(1)") true = false := by decide
example : isValidUrl (JSVal.str "http://10.0.0.5") true = false := by decide
example : isValidUrl (JSVal.str "http://10.0.0.5") false = true := by decide
example : isValidUrl (JSVal.str "#") true = false := by decide
example : isValidUrl (JSVal.str "not a url") false = false := by decide
example : parseURL "http://172.300.1.1" = none := by decide
example : parseURL "http://10.0.0.5" =
    some { protocol := "http:", hostname := "10.0.0.5" } := by decide
example : parseURL "http://0x7f.1" =
    some { protocol := "http:", hostname := "127.0.0.1" } := by decide
example : parseURL "http://10." =
    some { protocol := "http:", hostname := "0.0.0.10" } := by decide
example : parseURL "http://1.2.3.4.5" = none := by decide
example : parseURL "http://1.2.3.08" = none := by decide
example : isValidUrl (JSVal.str "http://0177.0.0.1") true = false := by decide
example : isValidUrl (JSVal.str "http://LOCALHOST:8080/x") true = false := by decide

/-! ## Helper lemmas -/

/-- A validated code has exactly 2 characters, all uppercase ASCII. -/
theorem isValidCountryCode_shape (c : String) (h : isValidCountryCode c = true) :
    c.length = 2 ∧ (c.data.all fun ch => ch.isUpper) = true := by
  by_cases h2 : c.length = 2
  · by_cases h3 : (c.data.all fun ch => ch.isUpper) = true
    · exact ⟨h2, h3⟩
    · exact absurd h (by simp [isValidCountryCode, h3])
  · exact absurd h (by simp [isValidCountryCode, h2])

/-- Stage 1 only returns validated codes. -/
theorem tryHeaderList_valid (headers : HeaderMap) :
    ∀ (names : List String) (c : String),
      tryHeaderList headers names = some c → isValidCountryCode c = true := by
  intro names
  induction names with
  | nil => intro c hc; exact absurd hc (by simp [tryHeaderList])
  | cons name rest ih =>
    intro c hc
    unfold tryHeaderList at hc
    cases hv : getHeader headers name with
    | none => rw [hv] at hc; exact ih c hc
    | some v =>
      rw [hv] at hc
      simp only [] at hc
      by_cases ht : v.truthy = true
      · rw [if_pos ht] at hc
        by_cases hval : isValidCountryCode v.normalize = true
        · rw [if_pos hval] at hc
          injection hc with hc
          rw [← hc]; exact hval
        · rw [if_neg hval] at hc; exact ih c hc
      · rw [if_neg ht] at hc; exact ih c hc

/-- Stage 2 only returns validated codes. -/
theorem scanHeaders_valid :
    ∀ (headers : HeaderMap) (c : String),
      scanHeaders headers = some c → isValidCountryCode c = true := by
  intro headers
  induction headers with
  | nil => intro c hc; exact absurd hc (by simp [scanHeaders])
  | cons kv rest ih =>
    intro c hc
    obtain ⟨key, v⟩ := kv
    unfold scanHeaders at hc
    by_cases hk : (containsSub (jsToLower key) "vercel" && containsSub (jsToLower key) "country") = true
    · rw [if_pos hk] at hc
      by_cases ht : v.truthy = true
      · rw [if_pos ht] at hc
        by_cases hval : isValidCountryCode v.normalize = true
        · rw [if_pos hval] at hc
          injection hc with hc
          rw [← hc]; exact hval
        · rw [if_neg hval] at hc; exact ih c hc
      · rw [if_neg ht] at hc; exact ih c hc
    · rw [if_neg hk] at hc; exact ih c hc

/-- Stage 3 only returns validated codes. -/
theorem cfStage_valid (headers : HeaderMap) (c : String)
    (hc : cfStage headers = some c) : isValidCountryCode c = true := by
  unfold cfStage at hc
  cases hv : getHeader headers "cf-ipcountry" with
  | none => rw [hv] at hc; exact absurd hc (by simp)
  | some v =>
    rw [hv] at hc
    simp only [] at hc
    by_cases ht : v.truthy = true
    · rw [if_pos ht] at hc
      by_cases hval : isValidCountryCode v.normalize = true
      · rw [if_pos hval] at hc
        injection hc with hc
        rw [← hc]; exact hval
      · rw [if_neg hval] at hc; exact absurd hc (by simp)
    · rw [if_neg ht] at hc; exact absurd hc (by simp)

/-- `detectCountry` is the stage-1 value pushed through the two guarded
later stages. -/
theorem detectCountry_eq (headers : HeaderMap) :
    detectCountry headers =
      stageStep (stageStep (stage1 headers) (scanHeaders headers)) (cfStage headers) := rfl

/-- The stage-1 value is always a validated code (the sentinel itself
validates). -/
theorem stage1_valid (headers : HeaderMap) : isValidCountryCode (stage1 headers) = true := by
  unfold stage1
  cases h1 : tryHeaderList headers vercelHeaders with
  | none => decide
  | some c => exact tryHeaderList_valid headers vercelHeaders c h1

/-- A guarded stage preserves validity of the running country value. -/
theorem stageStep_valid (prev : String) (o : Option String)
    (hp : isValidCountryCode prev = true)
    (ho : ∀ c, o = some c → isValidCountryCode c = true) :
    isValidCountryCode (stageStep prev o) = true := by
  unfold stageStep
  by_cases hx : prev = "XX"
  · rw [if_pos hx]
    cases o with
    | none => exact hp
    | some c => exact ho c rfl
  · rw [if_neg hx]; exact hp

/-- The resolver result is always a validated code. -/
theorem detectCountry_valid (headers : HeaderMap) :
    isValidCountryCode (detectCountry headers) = true := by
  rw [detectCountry_eq]
  exact stageStep_valid _ _
    (stageStep_valid _ _ (stage1_valid headers) (scanHeaders_valid headers))
    (cfStage_valid headers)

/-- A non-sentinel stage-1 hit decides the result. -/
theorem detectCountry_of_stage1 (headers : HeaderMap) (c : String)
    (h1 : tryHeaderList headers vercelHeaders = some c) (hx : c ≠ "XX") :
    detectCountry headers = c := by
  rw [detectCountry_eq]
  unfold stage1 stageStep
  rw [h1]
  simp [hx]

/-- With stage 1 empty, a non-sentinel stage-2 hit decides the result. -/
theorem detectCountry_of_stage2 (headers : HeaderMap) (c : String)
    (h1 : tryHeaderList headers vercelHeaders = none)
    (h2 : scanHeaders headers = some c) (hx : c ≠ "XX") :
    detectCountry headers = c := by
  rw [detectCountry_eq]
  unfold stage1 stageStep
  rw [h1, h2]
  simp [hx]

/-- With stages 1 and 2 empty, a stage-3 hit decides the result. -/
theorem detectCountry_of_stage3 (headers : HeaderMap) (c : String)
    (h1 : tryHeaderList headers vercelHeaders = none)
    (h2 : scanHeaders headers = none)
    (h3 : cfStage headers = some c) :
    detectCountry headers = c := by
  rw [detectCountry_eq]
  unfold stage1 stageStep
  rw [h1, h2, h3]
  simp

/-- With every stage empty, the result is the sentinel. -/
theorem detectCountry_of_none (headers : HeaderMap)
    (h1 : tryHeaderList headers vercelHeaders = none)
    (h2 : scanHeaders headers = none)
    (h3 : cfStage headers = none) :
    detectCountry headers = "XX" := by
  rw [detectCountry_eq]
  unfold stage1 stageStep
  rw [h1, h2, h3]
  simp

/-! ## Claim theorems -/

/-- C1 (amended): in stage 1, a present Vercel header whose normalized
value matches the alpha-2 pattern and is not the literal "XX" is
returned immediately, without consulting stage 2 or stage 3.  The
literal "XX" is the exception: the implementation reuses "XX" as the
running sentinel, so a detected "XX" lets the later stages run. -/
theorem claim_C1 (headers : HeaderMap) (c : String)
    (h1 : tryHeaderList headers vercelHeaders = some c) (hx : c ≠ "XX") :
    detectCountry headers = c :=
  detectCountry_of_stage1 headers c h1 hx

theorem claim_C1_witness :
    detectCountry [("X-VERCEL-IP-COUNTRY", HVal.str " br "),
        ("cf-ipcountry", HVal.str "FR")] = "BR" :=
  claim_C1 _ "BR" (by decide) (by decide)

/-- C1 counterexample: the claimed behaviour on the map with
`x-vercel-ip-country: "xx"` and `cf-ipcountry: "FR"` is "XX", but the
code resolves it to "FR": the stage-1 hit "XX" equals the sentinel, so
stage 2 re-detects "XX" and stage 3 overrides with the Cloudflare
code. -/
theorem claim_C1_cex :
    detectCountry [("x-vercel-ip-country", HVal.str "xx"),
        ("cf-ipcountry", HVal.str "FR")] = "FR" := by decide

/-- C2: `detectCountry` is total and always returns a string of exactly
two uppercase ASCII letters (the sentinel "XX" has this shape), and when
no stage yields a valid code it returns exactly "XX". -/
theorem claim_C2 (headers : HeaderMap) :
    ((detectCountry headers).length = 2
      ∧ ((detectCountry headers).data.all fun ch => ch.isUpper) = true)
    ∧ (tryHeaderList headers vercelHeaders = none → scanHeaders headers = none →
        cfStage headers = none → detectCountry headers = "XX") :=
  ⟨isValidCountryCode_shape _ (detectCountry_valid headers),
   fun h1 h2 h3 => detectCountry_of_none headers h1 h2 h3⟩

theorem claim_C2_witness :
    detectCountry [("x-vercel-ip-country", HVal.str "usa"), ("accept", HVal.str "text")]
      = "XX" :=
  (claim_C2 [("x-vercel-ip-country", HVal.str "usa"), ("accept", HVal.str "text")]).2
    (by decide) (by decide) (by decide)

/-- C3: the URL safety validator reproduces the test vectors of the
specification on both environment modes (`true` is production). -/
theorem claim_C3 :
    isValidUrl (JSVal.str "https://example.com/path") false = true
    ∧ (∀ m : Bool, isValidUrl (JSVal.str "javascript:alert(1)") m = false)
    ∧ isValidUrl (JSVal.str "http://10.0.0.5") true = false
    ∧ isValidUrl (JSVal.str "http://10.0.0.5") false = true
    ∧ (∀ m : Bool, isValidUrl (JSVal.str "#") m = false)
    ∧ (∀ m : Bool, isValidUrl (JSVal.str "not a url") m = false) := by
  refine ⟨by decide, ?_, by decide, by decide, ?_, ?_⟩ <;>
    exact fun m => by cases m <;> decide

/-- C4 (amended): any configuration load failure is recovered by
returning the hardcoded default configuration — a single DEFAULT
redirect entry, VPN detection ENABLED with threshold 60, and wait-time
bounds 1500 ms and 3000 ms.  (The claim said VPN detection is disabled;
the default has `enableVPNDetection := true`.) -/
theorem claim_C4 (e : String) :
    loadConfig (Except.error e) = getDefaultConfig
    ∧ getDefaultConfig.redirects = [("DEFAULT", "https://t.co/y5IrJWOLzN")]
    ∧ getDefaultConfig.settings.enableVPNDetection = true
    ∧ getDefaultConfig.settings.vpnDetectionThreshold = 60
    ∧ getDefaultConfig.settings.minWaitTime = 1500
    ∧ getDefaultConfig.settings.maxWaitTime = 3000 :=
  ⟨rfl, rfl, rfl, rfl, rfl, rfl⟩

/-- C4 counterexample: the default configuration substituted on load
failure has VPN detection enabled, not disabled as claimed. -/
theorem claim_C4_cex :
    (loadConfig (Except.error "config fetch failed")).settings.enableVPNDetection = true :=
  rfl

/-- C5 (amended): when an exact-match Vercel header carries a valid code
other than the literal "XX" and `cf-ipcountry` carries a different valid
code, the exact-match code wins.  For the exact-match code "XX" the
Cloudflare value wins instead, because "XX" equals the sentinel. -/
theorem claim_C5 (headers : HeaderMap) (c1 c2 : String)
    (hv : tryHeaderList headers vercelHeaders = some c1) (hx : c1 ≠ "XX")
    (hcf : cfStage headers = some c2) (hne : c1 ≠ c2) :
    detectCountry headers = c1 :=
  detectCountry_of_stage1 headers c1 hv hx

theorem claim_C5_witness :
    detectCountry [("x-vercel-ip-country", HVal.str "US"),
        ("cf-ipcountry", HVal.str "CA")] = "US" :=
  claim_C5 _ "US" "CA" (by decide) (by decide) (by decide) (by decide)

/-- C5 counterexample: both headers carry valid but different codes
("XX" is a valid alpha-2 pair), yet the Cloudflare code wins because the
exact-match code "XX" equals the sentinel. -/
theorem claim_C5_cex :
    detectCountry [("X-Vercel-Ip-Country", HVal.str "XX"),
        ("cf-ipcountry", HVal.str "FR")] = "FR" := by decide

/-- C6 (amended): the secondary-provider fallback matches only the exact
key "cf-ipcountry"; when that exact key holds a truthy value normalizing
to a valid code and stages 1 and 2 found nothing, the resolver returns
that code.  Other casings of the name are not matched by the function
itself (the Node transport lowercases incoming header names before the
function sees them). -/
theorem claim_C6 (headers : HeaderMap) (v : HVal)
    (h1 : tryHeaderList headers vercelHeaders = none)
    (h2 : scanHeaders headers = none)
    (hv : getHeader headers "cf-ipcountry" = some v)
    (ht : v.truthy = true)
    (hc : isValidCountryCode v.normalize = true) :
    detectCountry headers = v.normalize := by
  apply detectCountry_of_stage3 headers _ h1 h2
  unfold cfStage
  rw [hv]
  simp [ht, hc]

theorem claim_C6_witness :
    detectCountry [("cf-ipcountry", HVal.str "fr")] = "FR" :=
  (claim_C6 [("cf-ipcountry", HVal.str "fr")] (HVal.str "fr")
      (by decide) (by decide) (by decide) (by decide) (by decide)).trans
    (by decide)

/-- C6 counterexample: a header map carrying the Cloudflare header under
the casing "CF-IPCountry" with a valid value resolves to the sentinel,
not to that value — the lookup is by the exact key. -/
theorem claim_C6_cex :
    detectCountry [("CF-IPCountry", HVal.str "FR")] = "XX" := by decide

/-- C7 (amended): when stage 1 yields nothing and the fuzzy scan (first
header, in iteration order, whose lowercase name contains "vercel" and
"country" and whose value normalizes to a valid code) yields a code
other than the literal "XX", the resolver returns that code.  A scanned
"XX" equals the sentinel, so stage 3 may still override it. -/
theorem claim_C7 (headers : HeaderMap) (c : String)
    (h1 : tryHeaderList headers vercelHeaders = none)
    (h2 : scanHeaders headers = some c) (hx : c ≠ "XX") :
    detectCountry headers = c :=
  detectCountry_of_stage2 headers c h1 h2 hx

theorem claim_C7_witness :
    detectCountry [("x-custom-vercel-country-code", HVal.str "de")] = "DE" :=
  claim_C7 _ "DE" (by decide) (by decide) (by decide)

/-- C7 counterexample: the fuzzy scan finds the valid code "XX", yet the
resolver returns the Cloudflare code instead of the scanned code,
because the scanned "XX" equals the sentinel. -/
theorem claim_C7_cex :
    detectCountry [("x-custom-vercel-country-code", HVal.str "xx"),
        ("cf-ipcountry", HVal.str "FR")] = "FR" := by decide

/-- C8 (amended): the private-host block of `isValidUrl` is a coarse
string test applied only in production: any string parsing as an
http/https URL whose lowercased host (as normalized by the URL parser)
equals "localhost" or "127.0.0.1" or starts with "192.168.", "10." or
"172." is rejected in production mode and accepted in non-production
mode.  The claim's example "172.300.1.1" is not such a host: the URL
constructor validates IPv4-shaped hosts and fails on the part 300 >
255, so that string is rejected in both modes by the parse step, not
by the blocklist. -/
theorem claim_C8 (s : String) (u : URLRec)
    (hp : parseURL s = some u)
    (hs : u.protocol = "http:" ∨ u.protocol = "https:")
    (hne : u.hostname ≠ "")
    (hh : jsToLower u.hostname = "localhost" ∨ jsToLower u.hostname = "127.0.0.1"
        ∨ jsStartsWith (jsToLower u.hostname) "192.168." = true
        ∨ jsStartsWith (jsToLower u.hostname) "10." = true
        ∨ jsStartsWith (jsToLower u.hostname) "172." = true) :
    isValidUrl (JSVal.str s) true = false ∧ isValidUrl (JSVal.str s) false = true := by
  have h0 : s ≠ "" := by
    intro h
    rw [h, show parseURL "" = none from by decide] at hp
    exact Option.noConfusion hp
  have h1 : s ≠ "#" := by
    intro h
    rw [h, show parseURL "#" = none from by decide] at hp
    exact Option.noConfusion hp
  constructor
  · unfold isValidUrl
    simp only [hp, h0, h1]
    rcases hs with hs | hs <;>
      rcases hh with hh | hh | hh | hh | hh <;>
      simp [hs, hne, hh]
  · unfold isValidUrl
    simp only [hp, h0, h1]
    rcases hs with hs | hs <;> simp [hs, hne]

theorem claim_C8_witness :
    isValidUrl (JSVal.str "http://192.168.1.7") true = false
    ∧ isValidUrl (JSVal.str "http://192.168.1.7") false = true :=
  claim_C8 "http://192.168.1.7" { protocol := "http:", hostname := "192.168.1.7" }
    (by decide) (by decide) (by decide) (by decide)

/-- C8 counterexample: the claim names "172.300.1.1" as a host that is
accepted in non-production mode, but `http://172.300.1.1` is not a
well-formed URL — the URL constructor rejects the IPv4 part 300 > 255 —
so the validator rejects it in non-production mode as well. -/
theorem claim_C8_cex :
    isValidUrl (JSVal.str "http://172.300.1.1") false = false := by decide

/-- C9: a runtime error raised inside the try block of the handler of a
GET or POST request is caught and answered with HTTP 500, country "XX",
and a message that is the error detail in development mode and the fixed
generic string otherwise. -/
theorem claim_C9 (devMode : Bool) (method : String) (headers : HeaderMap)
    (errDetail : String) (hm : method = "GET" ∨ method = "POST") :
    handler devMode method headers (some errDetail) =
      { status := 500, allow := none, error := some "Internal server error",
        country := some "XX",
        message := some (if devMode then errDetail else "An error occurred") } := by
  rcases hm with hm | hm <;> simp [handler, hm]

theorem claim_C9_witness :
    handler true "GET" [] (some "boom") =
      { status := 500, allow := none, error := some "Internal server error",
        country := some "XX", message := some "boom" } :=
  (claim_C9 true "GET" [] "boom" (Or.inl rfl)).trans (by decide)

/-- C10: `isValidUrl` is total over arbitrary JavaScript inputs: every
non-string value is rejected by the leading guard, the empty string is
rejected by the guard, and a URL-parse failure is caught and turned into
the result `false` — in every mode. -/
theorem claim_C10 (mode : Bool) :
    (∀ b : Bool, isValidUrl (JSVal.nonstr b) mode = false)
    ∧ isValidUrl (JSVal.str "") mode = false
    ∧ (∀ s : String, parseURL s = none → isValidUrl (JSVal.str s) mode = false) := by
  refine ⟨fun b => rfl, by cases mode <;> decide, fun s hp => ?_⟩
  simp [isValidUrl, hp]

theorem claim_C10_witness :
    isValidUrl (JSVal.str "not a url") true = false :=
  (claim_C10 true).2.2 "not a url" (by decide)

theorem claim_C4_witness :
    loadConfig (Except.error "boom") = getDefaultConfig
    ∧ getDefaultConfig.redirects = [("DEFAULT", "https://t.co/y5IrJWOLzN")]
    ∧ getDefaultConfig.settings.enableVPNDetection = true
    ∧ getDefaultConfig.settings.vpnDetectionThreshold = 60
    ∧ getDefaultConfig.settings.minWaitTime = 1500
    ∧ getDefaultConfig.settings.maxWaitTime = 3000 :=
  claim_C4 "boom"
